import Mathlib

/-!
Verification of the generation-barrier parameter-sweep orchestrator of the
swatplus_utility repository.  The Python sources under
`CHTC/iterative_dag_jobs/` (controller.py, prepare.py, check.py) and
`sensitivity/` (ctrl_sensitivity_sample.py, ctrl_sensitivity_analyze.py,
sensitivity_analysis_onestep.py) are shallowly embedded: file contents are
`String`s, an absent file is `none`, and each script step becomes a pure
function on an explicit state.
-/

namespace SwatPlus

/-! ### Python string primitives

The scripts use `str.strip`, `int(...)` and `float(...)`.  These are modelled
on their core input formats: `strip` removes leading/trailing whitespace,
`int` accepts an optional sign followed by ASCII decimal digits, and `float`
accepts an optional sign, a decimal mantissa and an optional exponent
(special forms such as `inf`/`nan`, underscore separators and non-ASCII
digits are outside the model).
-/

/-- Whitespace as removed by Python `str.strip()` (core set). -/
def isSpaceChar (c : Char) : Bool := c.isWhitespace

/-- Python `str.strip()` on a character list. -/
def stripChars (l : List Char) : List Char :=
  ((l.dropWhile isSpaceChar).reverse.dropWhile isSpaceChar).reverse

/-- Python `str.strip()`. -/
def pyStrip (s : String) : String := String.mk (stripChars s.data)

/-- Value of an ASCII decimal digit character, `none` otherwise. -/
def digitVal? (c : Char) : Option Nat :=
  if c.isDigit then some (c.toNat - 48) else none

/-- Accumulating decimal evaluation of a digit-character list
(most significant first); fails on any non-digit. -/
def digitsValAux (acc : Nat) : List Char → Option Nat
  | [] => some acc
  | c :: cs =>
    match digitVal? c with
    | some d => digitsValAux (10 * acc + d) cs
    | none => none

/-- Decimal value of a non-empty digit-character list. -/
def digitsVal? : List Char → Option Nat
  | [] => none
  | c :: cs => digitsValAux 0 (c :: cs)

/-- Core of Python `int`: an already-stripped character list, an optional
single sign followed by one or more ASCII digits. -/
def pyIntChars? : List Char → Option Int
  | [] => none
  | c :: cs =>
    if c = '-' then (digitsVal? cs).map (fun n => -(n : Int))
    else if c = '+' then (digitsVal? cs).map (fun n => (n : Int))
    else (digitsVal? (c :: cs)).map (fun n => (n : Int))

/-- Python `int(s)` on its core format: optional whitespace, optional single
sign, one or more ASCII digits.  `none` models `ValueError`. -/
def pyInt? (s : String) : Option Int :=
  pyIntChars? (stripChars s.data)

/-- Decimal digit character for a value below ten. -/
def digitChar (d : Nat) : Char := Char.ofNat (48 + d)

/-- Fuel-driven decimal digit extraction, least significant first; `fuel ≥ n`
suffices for the recursion to complete. -/
def natDigitsRevAux : Nat → Nat → List Nat
  | 0, _ => []
  | fuel + 1, n => if n = 0 then [] else n % 10 :: natDigitsRevAux fuel (n / 10)

/-- Decimal digits of `n`, least significant first (empty for `0`). -/
def natDigitsRev (n : Nat) : List Nat := natDigitsRevAux n n

/-- Character list of Python `str(n)` for a natural number. -/
def natToChars (n : Nat) : List Char :=
  if n = 0 then ['0'] else (natDigitsRev n).reverse.map digitChar

/-- Python `str(n)` for a natural number. -/
def natToStr (n : Nat) : String := String.mk (natToChars n)

/-- Python `str(i)` for an integer. -/
def intToStr (i : Int) : String :=
  if i < 0 then String.mk ('-' :: natToChars i.natAbs) else natToStr i.natAbs

/-- Little-endian decimal evaluation of a digit-value list. -/
def evalRevLE : List Nat → Nat
  | [] => 0
  | d :: ds => d + 10 * evalRevLE ds

/-! ### The iterative DAG-job controller

Embedding of `CHTC/iterative_dag_jobs/{controller,prepare,check}.py`.
A file is `Option String` (`none` = absent).  Configuration constants are
taken verbatim from the scripts.
-/

/-- `NUM_JOBS_PER_ITER = 5` (controller.py / prepare.py / check.py). -/
def NUM_JOBS_PER_ITER : Nat := 5

/-- `MAX_ITERATIONS = 3` (controller.py / check.py). -/
def MAX_ITERATIONS : Int := 3

/-- `get_current_generation` of controller.py (lines 17-25) and prepare.py
(lines 12-20): the bootstrap reader.  A missing state file returns 0 and a
`ValueError` from `int(...)` returns 0; any content `int` accepts — including
a negative number — is returned as parsed. -/
def get_current_generation (state_file : Option String) : Int :=
  match state_file with
  | none => 0
  | some content =>
    match pyInt? content with
    | some g => g
    | none => 0

/-- `get_current_generation` of check.py (lines 13-24): the resume reader.
A missing state file or a `ValueError` from `int(...)` aborts the step
(`exit(1)`), modelled as `Except.error` carrying the printed message. -/
def get_current_generation_check (state_file : Option String) :
    Except String Int :=
  match state_file with
  | none => Except.error "Error: iteration.state not found. Cannot determine generation."
  | some content =>
    match pyInt? content with
    | some g => Except.ok g
    | none => Except.error "Error: Invalid content in iteration.state. Cannot determine generation."

/-- `update_generation` of controller.py (lines 28-30) / prepare.py (lines
23-25): the new state-file content is `str(gen_num)`. -/
def update_generation (gen_num : Int) : String := intToStr gen_num

/-- `check_continue` of controller.py (lines 99-115) / check.py (lines
57-72): the successive contents of `continue_signal.txt`, in order.  The file
is first truncated to empty; when `gen_num < max_iterations` it is then
overwritten with `"continue"`. -/
def check_continue_trace (gen_num max_iterations : Int) : List String :=
  "" :: (if gen_num < max_iterations then ["continue"] else [])

/-- Final content of `continue_signal.txt` after `check_continue` returns. -/
def check_continue_final (gen_num max_iterations : Int) : String :=
  if gen_num < max_iterations then "continue" else ""

/-- One output row of `gather_and_append_results` (columns
`generation,run_id,efficiency` of all_results.csv). -/
structure ResultRow where
  generation : Int
  run_id : Nat
  efficiency : String
deriving DecidableEq, Repr

/-- `gather_and_append_results` of controller.py (lines 69-96) / check.py
(lines 27-54), as the fragment of rows appended for one generation.
`result_files i` is the content of `multi_runs/gen_<g>/run_<i>/efficiency.txt`
(`none` when the file is absent, raising `FileNotFoundError` in the source,
which is caught and replaced by the default `"NA"`; otherwise the recorded
value is `f.read().strip()`). -/
def gather_and_append_results (gen_num : Int)
    (result_files : Nat → Option String) : List ResultRow :=
  (List.range NUM_JOBS_PER_ITER).map fun i =>
    { generation := gen_num
      run_id := i
      efficiency :=
        match result_files i with
        | some content => pyStrip content
        | none => "NA" }

/-- State-file effect of the `prepare` step (`controller.py` lines 125-129 /
`prepare.py` lines 64-68): read the current generation, add 1, prepare the
new round, and write the incremented value back. -/
def prepare_step_state (state_file : Option String) : Option String :=
  some (update_generation (get_current_generation state_file + 1))

/-- Successive observable resolutions of the `worker_jobs_current.dag`
pointer during the swap in `prepare_generation` (controller.py lines 59-62 /
prepare.py lines 54-57): if the link exists it is first `os.remove`d (the
pointer then resolves to nothing) before `os.symlink` installs the new
target; the initial state is included as the first element. -/
def symlink_swap_trace (old : Option String) (new_target : String) :
    List (Option String) :=
  match old with
  | some t => [some t, none, some new_target]
  | none => [none, some new_target]

/-- Filesystem state visible to the controller scripts: the generation state
file, the accumulated rows of all_results.csv, the continuation signal file,
and the per-generation, per-run result files. -/
structure WorkflowFS where
  state : Option String
  results : List ResultRow
  signal : Option String
  run_results : Int → Nat → Option String

/-- The `check_continue` branch of controller.py `__main__` (lines 130-136):
read the generation with the bootstrap reader; if it is 0 exit with an error
(second component `true`) touching nothing; otherwise append the gathered
rows and rewrite the signal file. -/
def check_step (fs : WorkflowFS) : WorkflowFS × Bool :=
  let current_gen := get_current_generation fs.state
  if current_gen = 0 then (fs, true)
  else
    ({ fs with
        results := fs.results ++
          gather_and_append_results current_gen (fs.run_results current_gen)
        signal := some (check_continue_final current_gen MAX_ITERATIONS) },
      false)

/-- check.py `__main__` (lines 75-81): same step with the fatal resume
reader; a missing or unparseable state file, or generation 0, aborts before
any write. -/
def check_step_standalone (fs : WorkflowFS) : WorkflowFS × Bool :=
  match get_current_generation_check fs.state with
  | Except.error _ => (fs, true)
  | Except.ok current_gen =>
    if current_gen = 0 then (fs, true)
    else
      ({ fs with
          results := fs.results ++
            gather_and_append_results current_gen (fs.run_results current_gen)
          signal := some (check_continue_final current_gen MAX_ITERATIONS) },
        false)

/-! ### The sensitivity sweep scripts

Embedding of the parts of `sensitivity/sensitivity_analysis_onestep.py` and
`sensitivity/ctrl_sensitivity_analyze.py` the claims are about.
-/

/-- Decimal value of a digit-value list, most significant first. -/
def decimalVal (l : List Nat) : Nat := l.foldl (fun a d => 10 * a + d) 0

/-- Core of Python `float`: an already-stripped, sign-free character list of
the form `digits[.digits][(e|E)[sign]digits]`, needing at least one mantissa
digit and nothing left over.  The value is represented exactly as a rational. -/
def pyFloatCore (l : List Char) : Option Rat :=
  let ipr := l.span Char.isDigit
  let fpr :=
    match ipr.2 with
    | '.' :: r => r.span Char.isDigit
    | _ => (([] : List Char), ipr.2)
  if ipr.1.isEmpty && fpr.1.isEmpty then none
  else
    let mantissa : Rat :=
      (decimalVal ((ipr.1 ++ fpr.1).map (fun c => c.toNat - 48)) : Rat)
        / (10 : Rat) ^ fpr.1.length
    match fpr.2 with
    | [] => some mantissa
    | e :: r =>
      if e = 'e' ∨ e = 'E' then
        let esr :=
          match r with
          | '-' :: rr => ((-1 : Int), rr)
          | '+' :: rr => ((1 : Int), rr)
          | rr => ((1 : Int), rr)
        let edr := esr.2.span Char.isDigit
        if edr.1.isEmpty || !edr.2.isEmpty then none
        else some (mantissa *
          (10 : Rat) ^ (esr.1 * (decimalVal (edr.1.map (fun c => c.toNat - 48)) : Int)))
      else none

/-- Python `float(s)` on its core decimal format (optional whitespace,
optional sign, decimal mantissa, optional exponent).  `none` models
`ValueError`; special forms (`inf`, `nan`, underscores) are outside the
model. -/
def pyFloat? (s : String) : Option Rat :=
  match stripChars s.data with
  | '-' :: r => (pyFloatCore r).map (fun q => -q)
  | '+' :: r => pyFloatCore r
  | r => pyFloatCore r

/-- Python `str.split(',')` on a character list: split at every comma,
keeping empty fields. -/
def splitCommaChars : List Char → List (List Char)
  | [] => [[]]
  | c :: cs =>
    let rest := splitCommaChars cs
    if c = ',' then [] :: rest
    else
      match rest with
      | [] => [[c]]
      | field :: fields => (c :: field) :: fields

/-- Python `line.split(',')`. -/
def pySplitComma (s : String) : List String :=
  (splitCommaChars s.data).map String.mk

/-- One parsed parameter of `parse_parameter_file`
(`sensitivity_analysis_onestep.py` lines 21-79). -/
structure ParamDef where
  name : String
  change_type : String
  lower_bound : Rat
  upper_bound : Rat
deriving DecidableEq, Repr

/-- Per-line behaviour of `parse_parameter_file`
(`sensitivity_analysis_onestep.py` lines 41-70): strip the line; ignore it
when empty or starting with `#`; split on `,`; require exactly 4 parts and
two float-convertible bounds, otherwise skip the line with a warning
(`none`). -/
def parse_parameter_line (line : String) : Option ParamDef :=
  let l := pyStrip line
  if l.data.isEmpty then none
  else if l.data.head? = some '#' then none
  else
    let parts := pySplitComma l
    if parts.length = 4 then
      match pyFloat? (pyStrip (parts.getD 2 "")), pyFloat? (pyStrip (parts.getD 3 "")) with
      | some lb, some ub =>
        some { name := pyStrip (parts.getD 0 "")
               change_type := pyStrip (parts.getD 1 "")
               lower_bound := lb
               upper_bound := ub }
      | _, _ => none
    else none

/-- `parse_parameter_file` (`sensitivity_analysis_onestep.py` lines 21-79)
on the file's list of lines: every line is processed in order and the
per-line results are collected. -/
def parse_parameter_file : List String → List ParamDef
  | [] => []
  | line :: rest =>
    match parse_parameter_line line with
    | some p => p :: parse_parameter_file rest
    | none => parse_parameter_file rest

/-- Spec-side classifier: a blank line or a comment line, the lines the spec
says are ignored. -/
def line_blank_or_comment (line : String) : Bool :=
  (pyStrip line).data.isEmpty || (pyStrip line).data.head? == some '#'

/-- Spec-side classifier: a well-formed parameter line — not blank or a
comment, exactly four comma-separated fields, and both bounds convert to
floats. -/
def line_well_formed (line : String) : Bool :=
  !line_blank_or_comment line &&
  (pySplitComma (pyStrip line)).length == 4 &&
  (pyFloat? (pyStrip ((pySplitComma (pyStrip line)).getD 2 ""))).isSome &&
  (pyFloat? (pyStrip ((pySplitComma (pyStrip line)).getD 3 ""))).isSome

/-- Spec-side reading of a well-formed line: the parameter record its four
fields denote. -/
def expected_param (line : String) : ParamDef :=
  let parts := pySplitComma (pyStrip line)
  { name := pyStrip (parts.getD 0 "")
    change_type := pyStrip (parts.getD 1 "")
    lower_bound := (pyFloat? (pyStrip (parts.getD 2 ""))).getD 0
    upper_bound := (pyFloat? (pyStrip (parts.getD 3 ""))).getD 0 }

/-- The unique-result map of `sensitivity_analysis_onestep.py` lines 392-400:
`results_map[tuple(arr)] = <indicators loaded from OutletsResults_<idx>>` for
`idx, arr` in `enumerate(loaded_unique_array, start=1)`.  `results idx` is
the indicator record loaded for unique row `idx`.  (`numpy.unique` rows are
pairwise distinct, so first-match association lookup coincides with the
Python dict.) -/
def results_map_of {β : Type} (uniques : List (List Rat)) (results : Nat → β) :
    List (List Rat × β) :=
  (uniques.enumFrom 1).map fun p => (p.2, results p.1)

/-- Python dict lookup on an association list keyed by exact sample-vector
equality. -/
def dict_lookup {β : Type} : List (List Rat × β) → List Rat → Option β
  | [], _ => none
  | (k, v) :: rest, key => if key = k then some v else dict_lookup rest key

/-- The result-broadcast step of `sensitivity_analysis_onestep.py` lines
401-405: for `idx, arr` in `enumerate(loaded_sample_array, start=1)`, the row
appended for original sample `arr` is the unique-result map entry for
`tuple(arr)` together with `Scenario = idx`.  The first component carries the
indicator columns, the second the `Scenario` index. -/
def broadcast_rows {β : Type} (samples : List (List Rat))
    (results_map : List (List Rat × β)) : List (Option β × Nat) :=
  (samples.enumFrom 1).map fun p => (dict_lookup results_map p.2, p.1)

/-- The sweep-mode result-collection loop of `ctrl_sensitivity_analyze.py`
lines 244-257: for `idx` in `1..num_sim`, if
`OutletsResults_<idx>/model_performance.json` does not exist the iteration is
skipped with a warning; otherwise its content is appended together with
`sim_index = idx`. -/
def collect_results_sweep (num_sim : Nat)
    (indicator_files : Nat → Option String) : List (String × Nat) :=
  (List.range num_sim).filterMap fun k =>
    (indicator_files (k + 1)).map fun content => (content, k + 1)

/-! ### Concrete scenario inputs used by witnesses and counterexamples -/

/-- A fresh working directory: no state file, no results, no signal, no
per-run outputs. -/
def empty_workflow_fs : WorkflowFS :=
  { state := none, results := [], signal := none, run_results := fun _ _ => none }

/-- Scenario C for the loop collector: five runs, `run_2`'s output directory
empty (no `efficiency.txt`), the others holding a real value. -/
def loop_out_files_scenarioC : Nat → Option String :=
  fun i => if i = 2 then none else some " 0.72\n"

/-- Scenario C for the sweep collector: five simulations, simulation 3's
`model_performance.json` absent, the others present. -/
def sweep_out_files_scenarioC : Nat → Option String :=
  fun i => if i = 3 then none else some "0.72"

/-- Per-run result files whose content is the literal text `NA` surrounded by
whitespace. -/
def na_content_files : Nat → Option String := fun _ => some " NA "

/-- A parameter line with a fifth, scope-like comma field. -/
def scope_line : String := "cn2, abschg, 0.1, 0.9, 1-5"

/-! ### Round-trip lemmas for the decimal primitives -/

theorem natDigitsRevAux_zero (f : Nat) : natDigitsRevAux f 0 = [] := by
  cases f <;> simp [natDigitsRevAux]

theorem natDigitsRevAux_eq_natDigitsRev (n : Nat) :
    ∀ fuel, n ≤ fuel → natDigitsRevAux fuel n = natDigitsRev n := by
  induction n using Nat.strong_induction_on with
  | _ n ih =>
    intro fuel hf
    cases n with
    | zero => rw [natDigitsRevAux_zero]; rfl
    | succ m =>
      cases fuel with
      | zero => omega
      | succ f =>
        have hq : (m + 1) / 10 < m + 1 := Nat.div_lt_self (by omega) (by omega)
        simp only [natDigitsRev, natDigitsRevAux]
        rw [if_neg (by omega), if_neg (by omega)]
        rw [ih _ hq f (by omega), ih _ hq m (by omega)]

theorem natDigitsRev_unfold (n : Nat) :
    natDigitsRev n = if n = 0 then [] else n % 10 :: natDigitsRev (n / 10) := by
  cases n with
  | zero => rfl
  | succ m =>
    have hq : (m + 1) / 10 < m + 1 := Nat.div_lt_self (by omega) (by omega)
    simp only [natDigitsRev, natDigitsRevAux]
    rw [if_neg (by omega), if_neg (by omega)]
    rw [natDigitsRevAux_eq_natDigitsRev ((m + 1) / 10) m (by omega)]
    rfl

theorem dropWhile_eq_self_of_all {p : Char → Bool} :
    ∀ {l : List Char}, (∀ c ∈ l, p c = false) → l.dropWhile p = l
  | [], _ => rfl
  | c :: cs, h => by
    simp [List.dropWhile, h c (by simp)]

theorem stripChars_eq_self {l : List Char}
    (h : ∀ c ∈ l, isSpaceChar c = false) : stripChars l = l := by
  unfold stripChars
  rw [dropWhile_eq_self_of_all h,
    dropWhile_eq_self_of_all (fun c hc => h c (List.mem_reverse.mp hc)),
    List.reverse_reverse]

theorem digitVal?_digitChar {d : Nat} (h : d < 10) :
    digitVal? (digitChar d) = some d := by
  interval_cases d <;> decide

theorem digitChar_not_space {d : Nat} (h : d < 10) :
    isSpaceChar (digitChar d) = false := by
  interval_cases d <;> decide

theorem digitChar_ne_minus {d : Nat} (h : d < 10) : digitChar d ≠ '-' := by
  interval_cases d <;> decide

theorem digitChar_ne_plus {d : Nat} (h : d < 10) : digitChar d ≠ '+' := by
  interval_cases d <;> decide


theorem evalRevLE_natDigitsRev (n : Nat) : evalRevLE (natDigitsRev n) = n := by
  induction n using Nat.strong_induction_on with
  | _ n ih =>
    rw [natDigitsRev_unfold]
    split
    · simp [evalRevLE, *]
    · rename_i h
      simp only [evalRevLE]
      rw [ih (n / 10) (Nat.div_lt_self (Nat.pos_of_ne_zero h) (by omega))]
      omega

theorem natDigitsRev_lt_ten (n : Nat) : ∀ d ∈ natDigitsRev n, d < 10 := by
  induction n using Nat.strong_induction_on with
  | _ n ih =>
    rw [natDigitsRev_unfold]
    split
    · simp
    · rename_i h
      intro d hd
      rcases List.mem_cons.mp hd with h1 | h2
      · subst h1; exact Nat.mod_lt _ (by omega)
      · exact ih (n / 10) (Nat.div_lt_self (Nat.pos_of_ne_zero h) (by omega)) d h2

theorem natDigitsRev_ne_nil {n : Nat} (h : n ≠ 0) : natDigitsRev n ≠ [] := by
  rw [natDigitsRev_unfold]
  simp [h]

theorem foldl_reverse_evalRevLE (ds : List Nat) (acc : Nat) :
    ds.reverse.foldl (fun a d => 10 * a + d) acc
      = acc * 10 ^ ds.length + evalRevLE ds := by
  induction ds generalizing acc with
  | nil => simp [evalRevLE]
  | cons d ds ih =>
    rw [List.reverse_cons, List.foldl_append, ih]
    simp only [List.foldl, evalRevLE, List.length_cons]
    ring

theorem digitsValAux_map_digitChar (ds : List Nat) (h : ∀ d ∈ ds, d < 10) :
    ∀ acc, digitsValAux acc (ds.map digitChar)
      = some (ds.foldl (fun a d => 10 * a + d) acc) := by
  induction ds with
  | nil => intro acc; rfl
  | cons d ds ih =>
    intro acc
    simp only [List.map, digitsValAux, digitVal?_digitChar (h d (by simp))]
    exact ih (fun e he => h e (by simp [he])) (10 * acc + d)

theorem digitsVal?_natToChars (n : Nat) : digitsVal? (natToChars n) = some n := by
  unfold natToChars
  split
  · subst n; decide
  · rename_i h
    have hne := natDigitsRev_ne_nil h
    have hmap : (natDigitsRev n).reverse.map digitChar
        = ((natDigitsRev n).reverse.map digitChar) := rfl
    rcases hl : (natDigitsRev n).reverse.map digitChar with _ | ⟨c, cs⟩
    · exfalso
      apply hne
      have := List.map_eq_nil_iff.mp hl
      simpa using this
    · show digitsValAux 0 (c :: cs) = some n
      rw [← hl]
      rw [digitsValAux_map_digitChar (natDigitsRev n).reverse
        (fun d hd => natDigitsRev_lt_ten n d (List.mem_reverse.mp hd)) 0]
      rw [foldl_reverse_evalRevLE, evalRevLE_natDigitsRev]
      simp

theorem natToChars_not_space (n : Nat) :
    ∀ c ∈ natToChars n, isSpaceChar c = false := by
  intro c hc
  unfold natToChars at hc
  split at hc
  · simp at hc; subst hc; decide
  · rcases List.mem_map.mp hc with ⟨d, hd, rfl⟩
    exact digitChar_not_space (natDigitsRev_lt_ten n d (List.mem_reverse.mp hd))

theorem natToChars_ne_nil (n : Nat) : natToChars n ≠ [] := by
  unfold natToChars
  split
  · simp
  · rename_i h
    simp [natDigitsRev_ne_nil h]

theorem natToChars_head_digit (n : Nat) {c : Char} {cs : List Char}
    (hl : natToChars n = c :: cs) : ∃ d, d < 10 ∧ c = digitChar d := by
  unfold natToChars at hl
  split at hl
  · refine ⟨0, by omega, ?_⟩
    simp at hl
    simp [hl.1.symm]
    rfl
  · rcases hmap : (natDigitsRev n).reverse.map digitChar with _ | ⟨c', cs'⟩
    · rw [hmap] at hl; exact absurd hl (by simp)
    · rw [hmap] at hl
      obtain ⟨rfl, _⟩ := List.cons.injEq .. ▸ hl
      rcases (List.map_eq_cons_iff.mp hmap) with ⟨d, ds, hds, hcd, _⟩
      refine ⟨d, ?_, hcd.symm⟩
      exact natDigitsRev_lt_ten n d (List.mem_reverse.mp (hds ▸ List.mem_cons_self d ds))

theorem pyIntChars?_natToChars (n : Nat) :
    pyIntChars? (natToChars n) = some (n : Int) := by
  rcases hl : natToChars n with _ | ⟨c, cs⟩
  · exact absurd hl (natToChars_ne_nil n)
  · rcases natToChars_head_digit n hl with ⟨d, hd10, rfl⟩
    simp only [pyIntChars?, if_neg (digitChar_ne_minus hd10),
      if_neg (digitChar_ne_plus hd10)]
    rw [← hl, digitsVal?_natToChars n]
    rfl

theorem pyInt?_natToStr (n : Nat) : pyInt? (natToStr n) = some (n : Int) := by
  unfold pyInt? natToStr
  have hdata : (String.mk (natToChars n)).data = natToChars n := rfl
  rw [hdata, stripChars_eq_self (natToChars_not_space n)]
  exact pyIntChars?_natToChars n

theorem pyInt?_intToStr (i : Int) : pyInt? (intToStr i) = some i := by
  unfold intToStr
  split
  · rename_i hneg
    unfold pyInt?
    have hdata : (String.mk ('-' :: natToChars i.natAbs)).data
        = '-' :: natToChars i.natAbs := rfl
    rw [hdata, stripChars_eq_self ?hsp]
    case hsp =>
      intro c hc
      rcases List.mem_cons.mp hc with rfl | h2
      · decide
      · exact natToChars_not_space _ c h2
    simp only [pyIntChars?, if_pos rfl]
    have hdv : digitsVal? (natToChars i.natAbs) = some i.natAbs :=
      digitsVal?_natToChars _
    rcases hl : natToChars i.natAbs with _ | ⟨c, cs⟩
    · exact absurd hl (natToChars_ne_nil _)
    · rw [← hl, hdv]
      have habs : (-(i.natAbs : Int)) = i := by omega
      exact congrArg some habs
  · rename_i hpos
    rw [pyInt?_natToStr]
    congr 1
    omega


/-! ### Helper lemmas about the embedded operations -/

theorem get_current_generation_update (g : Int) :
    get_current_generation (some (update_generation g)) = g := by
  simp [get_current_generation, update_generation, pyInt?_intToStr]

theorem gather_row (g : Int) (fs : Nat → Option String) (i : Nat)
    (hi : i < NUM_JOBS_PER_ITER) :
    (gather_and_append_results g fs)[i]? =
      some { generation := g, run_id := i,
             efficiency :=
               match fs i with
               | some c => pyStrip c
               | none => "NA" } := by
  simp [gather_and_append_results, List.getElem?_map, List.getElem?_range, hi]

theorem parse_parameter_file_append (a b : List String) :
    parse_parameter_file (a ++ b)
      = parse_parameter_file a ++ parse_parameter_file b := by
  induction a with
  | nil => rfl
  | cons l rest ih =>
    simp only [List.cons_append, parse_parameter_file]
    cases parse_parameter_line l <;> simp [ih]

theorem parse_parameter_line_eq (line : String) :
    parse_parameter_line line
      = if line_well_formed line then some (expected_param line) else none := by
  unfold parse_parameter_line line_well_formed line_blank_or_comment expected_param
  by_cases h1 : (pyStrip line).data.isEmpty
  · simp [h1]
  · by_cases h2 : (pyStrip line).data.head? = some '#'
    · simp [h1, h2]
    · by_cases h3 : (pySplitComma (pyStrip line)).length = 4
      · obtain ⟨a, b, c, d, hsp⟩ :
            ∃ a b c d, pySplitComma (pyStrip line) = [a, b, c, d] := by
          rcases hl : pySplitComma (pyStrip line)
            with _ | ⟨a, _ | ⟨b, _ | ⟨c, _ | ⟨d, _ | ⟨e, t⟩⟩⟩⟩⟩ <;>
            rw [hl] at h3 <;> simp at h3
          exact ⟨a, b, c, d, rfl⟩
        simp only [hsp]
        cases hc : pyFloat? (pyStrip c) <;> cases hd : pyFloat? (pyStrip d) <;>
          simp [h1, h2, hc, hd]
      · simp [h1, h2, h3]

/-! ### Claim theorems -/

/-- C1: `check_continue(g)` leaves the signal file containing the fixed token
`"continue"` exactly when `g < max_iterations` and empty (stop) exactly when
`g ≥ max_iterations`; every content the file takes during the decision is one
of the two states, never a mixture, and the final content is the decision;
with the configured `MAX_ITERATIONS = 3`, generations 0, 1, 2 continue and
generation 3 stops. -/
theorem check_continue_spec (g m : Int) :
    (check_continue_final g m = "continue" ↔ g < m) ∧
    (check_continue_final g m = "" ↔ ¬ g < m) ∧
    ((check_continue_trace g m).all fun s => s == "" || s == "continue") = true ∧
    (check_continue_trace g m).getLast? = some (check_continue_final g m) ∧
    (MAX_ITERATIONS = 3 ∧
      check_continue_final 0 MAX_ITERATIONS = "continue" ∧
      check_continue_final 1 MAX_ITERATIONS = "continue" ∧
      check_continue_final 2 MAX_ITERATIONS = "continue" ∧
      check_continue_final 3 MAX_ITERATIONS = "") := by
  refine ⟨?_, ?_, ?_, ?_, by decide⟩
  · by_cases h : g < m <;> simp [check_continue_final, h]
  · by_cases h : g < m <;> simp [check_continue_final, h]
  · by_cases h : g < m <;> simp [check_continue_trace, h]
  · by_cases h : g < m <;> simp [check_continue_trace, check_continue_final, h]

/-- Witness for C1 at generation 0. -/
theorem check_continue_spec_witness :
    check_continue_final 0 3 = "continue" :=
  (check_continue_spec 0 3).1.mpr (by decide)

/-- C4: writing any non-negative generation `g` to the state store and
reading it back returns exactly `g`. -/
theorem generation_state_roundtrip (g : Nat) :
    get_current_generation (some (update_generation (g : Int))) = (g : Int) :=
  get_current_generation_update (g : Int)

/-- Witness for C4 at generation 7. -/
theorem generation_state_roundtrip_witness :
    get_current_generation (some (update_generation ((7 : Nat) : Int)))
      = ((7 : Nat) : Int) :=
  generation_state_roundtrip 7

/-- C6 counterexample: the persisted content `"-1"` is not a valid
non-negative integer, yet the bootstrap reader returns `-1` (not the claimed
default 0) and the resume reader succeeds with `-1` (not the claimed fatal
error), because Python `int` parses a leading sign. -/
theorem bootstrap_read_negative_counterexample :
    pyInt? "-1" = some (-1) ∧
    get_current_generation (some "-1") = -1 ∧
    get_current_generation (some "-1") ≠ 0 ∧
    get_current_generation_check (some "-1") = Except.ok (-1) := by
  refine ⟨rfl, rfl, by decide, rfl⟩

/-- C6 (amended): when no state record exists or the persisted value fails
integer parsing, the bootstrap reader (controller.py / prepare.py) returns
the recoverable default 0 while the resume reader (check.py) aborts with an
error; any value that `int` does parse — including a negative one — is
returned as-is by both readers. -/
theorem generation_read_error_policy (state_file : Option String) :
    ((state_file = none ∨ ∃ s, state_file = some s ∧ pyInt? s = none) →
      get_current_generation state_file = 0 ∧
      ∃ e, get_current_generation_check state_file = Except.error e) ∧
    (∀ s g, state_file = some s → pyInt? s = some g →
      get_current_generation state_file = g ∧
      get_current_generation_check state_file = Except.ok g) := by
  constructor
  · rintro (rfl | ⟨s, rfl, hs⟩)
    · exact ⟨rfl, _, rfl⟩
    · simp [get_current_generation, get_current_generation_check, hs]
  · rintro s g rfl hg
    simp [get_current_generation, get_current_generation_check, hg]

/-- Witness for C6 (amended) at the unparseable content `"abc"`. -/
theorem generation_read_error_policy_witness :
    get_current_generation (some "abc") = 0 ∧
    ∃ e, get_current_generation_check (some "abc") = Except.error e :=
  (generation_read_error_policy (some "abc")).1 (Or.inr ⟨"abc", rfl, by decide⟩)

/-- C7: every execution of the prepare step persists a state that reads back
as exactly one more than the state it read (never more, never less), and the
initial absent state reads as 0 ("no round has run yet"). -/
theorem generation_increments_by_one (state_file : Option String) :
    get_current_generation (prepare_step_state state_file)
      = get_current_generation state_file + 1 ∧
    get_current_generation none = 0 := by
  refine ⟨?_, rfl⟩
  simp only [prepare_step_state]
  exact get_current_generation_update _

/-- Witness for C7 on the fresh (absent) state. -/
theorem generation_increments_by_one_witness :
    get_current_generation (prepare_step_state none)
      = get_current_generation none + 1 :=
  (generation_increments_by_one none).1

/-- C10: when the stored generation reads as 0, the collect/decide step exits
with an error before gathering any results or touching the continuation
signal, leaving the whole filesystem state unchanged — both for the
controller's `check_continue` branch (bootstrap reader) and for the
standalone check script (resume reader). -/
theorem check_step_blocks_generation_zero (fs : WorkflowFS) :
    (get_current_generation fs.state = 0 →
      check_step fs = (fs, true) ∧
      (check_step fs).1.results = fs.results ∧
      (check_step fs).1.signal = fs.signal) ∧
    (∀ s, fs.state = some s → pyInt? s = some 0 →
      check_step_standalone fs = (fs, true)) := by
  constructor
  · intro h
    refine ⟨?_, ?_, ?_⟩ <;> simp [check_step, h]
  · intro s hs h0
    simp [check_step_standalone, get_current_generation_check, hs, h0]

/-- Witness for C10 on the empty filesystem (absent state file reads as 0). -/
theorem check_step_blocks_generation_zero_witness :
    check_step empty_workflow_fs = (empty_workflow_fs, true) :=
  ((check_step_blocks_generation_zero empty_workflow_fs).1 rfl).1

/-- C2: in dedup sweep mode, two original sample rows holding the same
vector receive identical indicator values, because each original row is
populated by looking up its exact sample-vector tuple in the unique-result
map; the `Scenario` index (second component) is the only per-row
difference. -/
theorem dedup_broadcast_identical {β : Type} (samples uniques : List (List Rat))
    (results : Nat → β) (i j : Nat)
    (h : samples[i]? = samples[j]?) :
    ((broadcast_rows samples (results_map_of uniques results))[i]?).map Prod.fst
      = ((broadcast_rows samples (results_map_of uniques results))[j]?).map Prod.fst := by
  simp only [broadcast_rows, List.getElem?_map, List.getElem?_enumFrom,
    Option.map_map]
  simp only [Function.comp_def]
  rw [h]

/-- Witness for C2 on a two-row matrix whose rows coincide. -/
theorem dedup_broadcast_identical_witness :
    ((broadcast_rows [[(1 : Rat)], [(1 : Rat)]]
        (results_map_of [[(1 : Rat)]] (fun _ => "res")))[0]?).map Prod.fst
      = ((broadcast_rows [[(1 : Rat)], [(1 : Rat)]]
        (results_map_of [[(1 : Rat)]] (fun _ => "res")))[1]?).map Prod.fst :=
  dedup_broadcast_identical [[(1 : Rat)], [(1 : Rat)]] [[(1 : Rat)]]
    (fun _ => "res") 0 1 (by decide)

/-- C3 counterexample: the sweep-mode result collector
(ctrl_sensitivity_analyze.py) given 5 simulations of which exactly one lacks
its result artifact returns 4 rows and no `"NA"` row — the missing job's row
is skipped entirely, not recorded with the sentinel. -/
theorem sweep_collector_skip_counterexample :
    sweep_out_files_scenarioC 3 = none ∧
    collect_results_sweep 5 sweep_out_files_scenarioC
      = [("0.72", 1), ("0.72", 2), ("0.72", 4), ("0.72", 5)] ∧
    (collect_results_sweep 5 sweep_out_files_scenarioC).length = 4 ∧
    "NA" ∉ (collect_results_sweep 5 sweep_out_files_scenarioC).map Prod.fst := by
  decide

/-- C3 (amended): the loop-mode collector records the sentinel `"NA"` for an
absent result artifact and continues, always producing one row per job
(Scenario C: with 5 jobs and exactly one empty output directory it yields 4
real rows and 1 `"NA"` row without raising); the sweep-mode collector instead
skips the missing job's row entirely — every row it emits comes from a
present artifact — also without raising. -/
theorem result_collector_partial_failure (g : Int) (fs : Nat → Option String) :
    (gather_and_append_results g fs).length = NUM_JOBS_PER_ITER ∧
    (∀ i, i < NUM_JOBS_PER_ITER → fs i = none →
      (gather_and_append_results g fs)[i]? = some ⟨g, i, "NA"⟩) ∧
    (∀ i c, i < NUM_JOBS_PER_ITER → fs i = some c →
      (gather_and_append_results g fs)[i]? = some ⟨g, i, pyStrip c⟩) ∧
    (((gather_and_append_results 1 loop_out_files_scenarioC).filter
        (fun r => r.efficiency == "NA")).length = 1 ∧
      ((gather_and_append_results 1 loop_out_files_scenarioC).filter
        (fun r => r.efficiency != "NA")).length = 4) ∧
    (∀ (num_sim : Nat) (ind : Nat → Option String) r,
      r ∈ collect_results_sweep num_sim ind → ind r.2 = some r.1) := by
  refine ⟨by simp [gather_and_append_results], ?_, ?_, by decide, ?_⟩
  · intro i hi hnone
    rw [gather_row g fs i hi]
    simp [hnone]
  · intro i c hi hc
    rw [gather_row g fs i hi]
    simp [hc]
  · intro n ind r hr
    unfold collect_results_sweep at hr
    rcases List.mem_filterMap.mp hr with ⟨k, _, hmap⟩
    rcases Option.map_eq_some'.mp hmap with ⟨content, hcontent, rfl⟩
    simpa using hcontent

/-- Witness for C3 on Scenario C's loop filesystem: the missing run is
recorded as an `"NA"` row. -/
theorem result_collector_partial_failure_witness :
    (gather_and_append_results 1 loop_out_files_scenarioC)[2]?
      = some ⟨1, 2, "NA"⟩ :=
  (result_collector_partial_failure 1 loop_out_files_scenarioC).2.1 2
    (by decide) (by decide)

/-- C5 counterexample: during the symlink swap with an existing pointer, the
state after `os.remove` is observable, and in it the pointer resolves to
neither the old nor the new graph. -/
theorem symlink_swap_neither_counterexample :
    (none : Option String) ∈
      symlink_swap_trace (some "worker_jobs_gen_1.dag") "worker_jobs_gen_2.dag" ∧
    (none : Option String) ≠ some "worker_jobs_gen_1.dag" ∧
    (none : Option String) ≠ some "worker_jobs_gen_2.dag" := by
  decide

/-- C5 (amended): at every point observable during and after the swap the
current-graph pointer resolves to the old graph, to the new graph, or — in
the transient state between removal and re-creation — to nothing; it never
resolves to any third graph, and the final state always resolves to the new
graph. -/
theorem symlink_swap_states (old : Option String) (new_target : String) :
    (∀ s ∈ symlink_swap_trace old new_target,
      s = old ∨ s = some new_target ∨ s = none) ∧
    (symlink_swap_trace old new_target).getLast? = some (some new_target) := by
  obtain _ | t := old <;>
    refine ⟨?_, by simp [symlink_swap_trace]⟩ <;>
    · intro s hs
      simp [symlink_swap_trace] at hs
      rcases hs with rfl | rfl | rfl <;> simp

/-- Witness for C5 on a concrete swap. -/
theorem symlink_swap_states_witness :
    (none : Option String) = some "worker_jobs_gen_1.dag" ∨
    (none : Option String) = some "worker_jobs_gen_2.dag" ∨
    (none : Option String) = none :=
  (symlink_swap_states (some "worker_jobs_gen_1.dag") "worker_jobs_gen_2.dag").1
    none (by decide)

/-- C8 counterexample: a line carrying a fifth, scope-like comma field —
admitted by the claimed line form `name, change_type, lower_bound,
upper_bound[, scope]` — is not parsed into a parameter: it is skipped as
having the wrong field count, even though it is neither blank nor a comment
and both bounds convert to floats. -/
theorem scope_field_counterexample :
    parse_parameter_file [scope_line] = [] ∧
    (pySplitComma (pyStrip scope_line)).length = 5 ∧
    line_blank_or_comment scope_line = false ∧
    (pyFloat? " 0.1").isSome = true ∧
    (pyFloat? " 0.9").isSome = true := by
  decide

/-- C8 (amended): parsing processes the file line by line, where a
well-formed line has exactly four comma-separated fields `name, change_type,
lower_bound, upper_bound` (a fifth scope field makes the line malformed; in
the spatially-scoped variant the scope is encoded inside the name field);
blank lines and comment lines are ignored, and every malformed line — wrong
comma-field count or a bound that fails float conversion — is skipped with a
warning while parsing of the remaining lines continues; a malformed line is
never fatal, and a well-formed line contributes exactly its parameter
record in order. -/
theorem parse_parameter_file_policy (pre post : List String) (line : String) :
    (line_well_formed line = false →
      parse_parameter_file (pre ++ line :: post)
        = parse_parameter_file (pre ++ post)) ∧
    (line_well_formed line = true →
      parse_parameter_file (pre ++ line :: post)
        = parse_parameter_file pre
          ++ expected_param line :: parse_parameter_file post) := by
  constructor <;> intro h
  · rw [parse_parameter_file_append, parse_parameter_file_append]
    simp [parse_parameter_file, parse_parameter_line_eq, h]
  · rw [parse_parameter_file_append]
    simp [parse_parameter_file, parse_parameter_line_eq, h]

/-- Witness for C8: a comment line between two well-formed lines is dropped
while its neighbours parse. -/
theorem parse_parameter_file_policy_witness :
    parse_parameter_file (["cn2,pctchg,-0.2,0.2"] ++ "# note" :: ["esco,absval,0.0,1.0"])
      = parse_parameter_file (["cn2,pctchg,-0.2,0.2"] ++ ["esco,absval,0.0,1.0"]) :=
  (parse_parameter_file_policy ["cn2,pctchg,-0.2,0.2"] ["esco,absval,0.0,1.0"]
    "# note").1 (by decide)

/-- C9 counterexample: a present result artifact whose stripped content is
the literal text `NA` is recorded as `"NA"` even though the artifact is not
absent — so `"NA"` in the table does not imply a missing artifact. -/
theorem verbatim_na_counterexample :
    na_content_files 0 = some " NA " ∧
    na_content_files 0 ≠ none ∧
    ((gather_and_append_results 1 na_content_files)[0]?).map ResultRow.efficiency
      = some "NA" := by
  decide

/-- C9 (amended): in the loop-mode collector, whenever a job's result
artifact exists the recorded value is exactly the artifact's text stripped of
surrounding whitespace, with no numeric validation (non-numeric or empty
text is recorded verbatim); the collector substitutes the `"NA"` sentinel
exactly when the artifact is absent — though a present artifact whose
stripped content is itself the string `"NA"` records the same string. -/
theorem loop_collector_verbatim (g : Int) (fs : Nat → Option String) (i : Nat)
    (hi : i < NUM_JOBS_PER_ITER) :
    (∀ c, fs i = some c →
      (gather_and_append_results g fs)[i]? = some ⟨g, i, pyStrip c⟩) ∧
    (fs i = none →
      (gather_and_append_results g fs)[i]? = some ⟨g, i, "NA"⟩) := by
  constructor
  · intro c hc
    rw [gather_row g fs i hi]
    simp [hc]
  · intro hn
    rw [gather_row g fs i hi]
    simp [hn]

/-- Witness for C9: the stripped verbatim content of a present artifact. -/
theorem loop_collector_verbatim_witness :
    (gather_and_append_results 1 na_content_files)[0]?
      = some ⟨1, 0, pyStrip " NA "⟩ :=
  (loop_collector_verbatim 1 na_content_files 0 (by decide)).1 " NA " rfl

end SwatPlus
